import Mathlib

/-!
Shallow embedding of StatDecisionKit (StatisticalTestRunner) and proofs about
its test-selection, test-execution, missing-data and feature-analysis logic.

A pandas DataFrame is modelled as a header of column names, a parallel list of
column dtypes, and a list of rows of cells.  The scipy statistics routines are
an external trusted library; the executor's calls into them are recorded
symbolically in the result (which sample(s) and parameters were passed), and
the numeric p-value a call would yield is supplied by an oracle parameter.
Python in-place mutation is made explicit: the executor returns both its
Python return value and the state of the caller's DataFrame object after the
call.  A Python crash (attribute error on a string result) is modelled as
the value none.
-/

/-- Column dtypes we need: integer, floating point, boolean and object
(string-like). -/
inductive Dtype where
  | intD
  | floatD
  | boolD
  | objD
deriving DecidableEq, Repr

/-- Embeds pandas is_numeric_dtype: true for integer, floating point and
boolean dtypes, false for object (string-like) dtype. -/
def isNumericDtype : Dtype → Bool
  | Dtype.objD => false
  | _ => true

/-- A single value in a DataFrame cell: a numeric value, a string, a boolean,
or a missing value (NaN/None). -/
inductive Cell where
  | num (q : ℚ)
  | str (s : String)
  | boolV (b : Bool)
  | na
deriving DecidableEq, Repr

/-- A pandas DataFrame: named columns with per-column dtypes and row-major
data. -/
structure DataFrame where
  header : List String
  dtypes : List Dtype
  rows : List (List Cell)
deriving DecidableEq, Repr

/-- Index of a column name in the header, if present. -/
def colIdx (df : DataFrame) (c : String) : Option ℕ :=
  df.header.findIdx? (fun h => decide (h = c))

/-- Dtype of a named column, if the column exists. -/
def colDtype (df : DataFrame) (c : String) : Option Dtype :=
  (colIdx df c).bind (fun i => df.dtypes.get? i)

/-- Cells of a named column, top to bottom (data[column] as a Series). -/
def colCells (df : DataFrame) (c : String) : List Cell :=
  match colIdx df c with
  | some i => df.rows.map (fun r => r.getD i Cell.na)
  | none => []

/-- Number of rows, the Python len(data). -/
def nrows (df : DataFrame) : ℕ := df.rows.length

/-- Embeds StatisticalTestRunner.get_feature_type: numerical when pandas
considers the column dtype numeric, else categorical. -/
def get_feature_type (df : DataFrame) (column : String) : String :=
  if ((colDtype df column).elim false isNumericDtype) = true then "numerical"
  else "categorical"

/-- Embeds StatisticalTestRunner.determine_statistical_test.  A feature2 that
is the empty string is falsy in Python and treated like an absent feature2
when computing feature2_type. -/
def determine_statistical_test (df : DataFrame) (feature1 : String)
    (feature2 : Option String) (paired : Bool) : String :=
  let feature1_type := get_feature_type df feature1
  let feature2_type : Option String :=
    match feature2 with
    | some s => if s = "" then none else some (get_feature_type df s)
    | none => none
  let sample_size := nrows df
  match feature2_type with
  | none =>
      if feature1_type = "categorical" then "Chi-squared goodness of fit test"
      else if feature1_type = "numerical" then
        (if sample_size ≤ 30 then "One-sample t-test" else "Z-test")
      else "Unable to determine an appropriate test"
  | some t2 =>
      if feature1_type = t2 then
        (if feature1_type = "categorical" then "Chi-squared test of independence"
         else if feature1_type = "numerical" then
           (if paired then "Paired t-test"
            else if 30 < sample_size then "Two-sample t-test"
            else "ANOVA")
         else "Unable to determine an appropriate test")
      else
        (if feature1_type = "numerical" ∧ t2 = "categorical" then "ANOVA"
         else if feature1_type = "categorical" ∧ t2 = "numerical" then "ANOVA"
         else "Unable to determine an appropriate test")

/-- Embeds data.dropna with a subset of columns: keep exactly the rows that
are non-missing in every subset column. -/
def dropnaSubset (df : DataFrame) (subset : List String) : DataFrame :=
  let idxs := subset.filterMap (colIdx df)
  let keep := fun (r : List Cell) => idxs.all (fun i => decide (r.getD i Cell.na ≠ Cell.na))
  { df with rows := df.rows.filter keep }

/-- Numeric contents of a list of cells; booleans count as 1/0 as in pandas,
missing values are skipped (skipna). -/
def cellNums (cells : List Cell) : List ℚ :=
  cells.filterMap (fun c =>
    match c with
    | Cell.num q => some q
    | Cell.boolV b => some (if b then 1 else 0)
    | _ => none)

/-- Embeds Series.mean with skipna: mean over non-missing numeric values. -/
def meanCells (cells : List Cell) : ℚ :=
  let ns := cellNums cells
  if ns.length = 0 then 0 else ns.sum / (ns.length : ℚ)

/-- Number of occurrences of a value in a list of cells. -/
def countOcc (cells : List Cell) (v : Cell) : ℕ :=
  (cells.filter (fun c => decide (c = v))).length

/-- Embeds Series.mode()[0]: a most frequent non-missing value. -/
def modeCell (cells : List Cell) : Cell :=
  let vs := cells.filter (fun c => decide (c ≠ Cell.na))
  match vs with
  | [] => Cell.na
  | v :: _ => vs.foldl (fun best c =>
      if countOcc vs best < countOcc vs c then c else best) v

/-- Fill the missing entries of column index i with the value v, in every
row (Series.fillna applied to one column). -/
def fillnaCol (df : DataFrame) (i : ℕ) (v : Cell) : DataFrame :=
  { df with rows := df.rows.map (fun r =>
      r.mapIdx (fun j c => if j = i ∧ c = Cell.na then v else c)) }

/-- Impute a single feature in place: mean for numeric dtype columns, mode
for the rest, as in the impute branch of execute_statistical_test. -/
def imputeFeature (df : DataFrame) (f : String) : DataFrame :=
  match colIdx df f with
  | none => df
  | some i =>
      let cells := colCells df f
      if isNumericDtype (df.dtypes.getD i Dtype.objD) then
        fillnaCol df i (Cell.num (meanCells cells))
      else
        fillnaCol df i (modeCell cells)

/-- Embeds the missing-data handling prologue of execute_statistical_test.
remove drops rows missing in feature1 (and feature2 when present); impute
fills each present, truthy feature in place; any other strategy leaves the
data untouched and the executor continues on it. -/
def cleanData (df : DataFrame) (feature1 : String) (feature2 : Option String)
    (handleMissing : String) : DataFrame :=
  if handleMissing = "remove" then
    dropnaSubset df (match feature2 with
      | none => [feature1]
      | some s => [feature1, s])
  else if handleMissing = "impute" then
    let step := fun (d : DataFrame) (f : Option String) =>
      match f with
      | none => d
      | some s => if s = "" then d else imputeFeature d s
    step (step df (some feature1)) feature2
  else df

/-- Symbolic record of which trusted scipy routine the executor invoked and
with what data; empty is the initial result value that survives when no
dispatch branch matches. -/
inductive ResultMap where
  | empty
  | zTest (sample : List Cell)
  | oneSampleT (sample : List Cell) (popMean : ℚ)
  | twoSampleT (s1 s2 : List Cell)
  | pairedT (s1 s2 : List Cell)
  | anova (numCol catCol : List Cell)
  | chi2 (c1 c2 : List Cell)
deriving DecidableEq, Repr

/-- A Python value returned by execute_statistical_test: a raw result dict,
an error string, or the detailed summary dict. -/
inductive PyValue where
  | dict (m : ResultMap)
  | strv (s : String)
  | summary (testName outcome : String) (p : Option ℚ)
deriving DecidableEq, Repr

/-- Embeds result.get with a default: the empty dict has no p_value entry;
every other result carries the p-value the trusted library produced, given
here by the oracle pv. -/
def resultGetPValueD (pv : ResultMap → ℚ) (m : ResultMap) (d : ℚ) : ℚ :=
  match m with
  | ResultMap.empty => d
  | _ => pv m

/-- Embeds result.get without a default. -/
def resultGetPV (pv : ResultMap → ℚ) (m : ResultMap) : Option ℚ :=
  match m with
  | ResultMap.empty => none
  | _ => some (pv m)

/-- Embeds the dispatch block of execute_statistical_test over the selected
test name, on already-cleaned data.  Unmatched names (goodness of fit,
undetermined) leave the initial empty dict. -/
def runSelectedTest (data : DataFrame) (feature1 : String)
    (feature2 : Option String) (testName : String) : PyValue :=
  if testName = "Z-test" then
    PyValue.dict (ResultMap.zTest (colCells data feature1))
  else if testName = "One-sample t-test" then
    PyValue.dict (ResultMap.oneSampleT (colCells data feature1)
      (meanCells (colCells data feature1)))
  else if testName = "Two-sample t-test" then
    PyValue.dict (ResultMap.twoSampleT (colCells data feature1)
      (colCells data (feature2.getD "")))
  else if testName = "Paired t-test" then
    PyValue.dict (ResultMap.pairedT (colCells data feature1)
      (colCells data (feature2.getD "")))
  else if testName = "ANOVA" then
    match feature2 with
    | some s =>
        let n1 := (colDtype data feature1).elim false isNumericDtype
        let n2 := (colDtype data s).elim false isNumericDtype
        if n1 = true ∧ n2 = false then
          PyValue.dict (ResultMap.anova (colCells data feature1) (colCells data s))
        else if n2 = true ∧ n1 = false then
          PyValue.dict (ResultMap.anova (colCells data s) (colCells data feature1))
        else
          PyValue.strv "Error: ANOVA requires one numeric and one categorical feature."
    | none => PyValue.strv "Error: ANOVA requires two features."
  else if testName = "Chi-squared test of independence" then
    PyValue.dict (ResultMap.chi2 (colCells data feature1)
      (colCells data (feature2.getD "")))
  else PyValue.dict ResultMap.empty

/-- Embeds the detailed/summary epilogue: error strings return early and are
never wrapped; dicts are wrapped into the three-field summary when detailed
is requested, with the hardcoded 0.05 cutoff. -/
def wrapDetailed (pv : ResultMap → ℚ) (testName : String) (res : PyValue)
    (detailed : Bool) : PyValue :=
  match res with
  | PyValue.strv s => PyValue.strv s
  | PyValue.dict m =>
      if detailed then
        PyValue.summary testName
          (if resultGetPValueD pv m 1 < (1 : ℚ) / 20 then "Significant"
           else "Not Significant")
          (resultGetPV pv m)
      else PyValue.dict m
  | x => x

/-- Embeds StatisticalTestRunner.execute_statistical_test.  Returns the
Python return value together with the state of the caller's DataFrame object
after the call: remove rebinds a fresh frame so the caller is untouched, but
impute fills the caller's own columns in place. -/
def execute_statistical_test (pv : ResultMap → ℚ) (df : DataFrame)
    (feature1 : String) (feature2 : Option String) (detailed : Bool)
    (handleMissing : String) : PyValue × DataFrame :=
  let data := cleanData df feature1 feature2 handleMissing
  let testName := determine_statistical_test data feature1 feature2 false
  (wrapDetailed pv testName (runSelectedTest data feature1 feature2 testName) detailed,
   if handleMissing = "impute" then data else df)

/-- Embeds result.get applied to the executor's return value inside
analyze_features: defined on dicts, an attribute error (modelled as none) on
an error string. -/
def pValueOfResult (pv : ResultMap → ℚ) : PyValue → Option ℚ
  | PyValue.dict m => some (resultGetPValueD pv m 1)
  | _ => none

/-- Embeds the column loop of analyze_features; none models the loop raising
(aborting the whole run) at some column. -/
def analyzeLoop (pv : ResultMap → ℚ) (df : DataFrame) (target : String)
    (alpha : ℚ) : List String → Option (List String × List String)
  | [] => some ([], [])
  | c :: rest =>
      if c = target then analyzeLoop pv df target alpha rest
      else
        match pValueOfResult pv
            (execute_statistical_test pv df c (some target) false "remove").1 with
        | none => none
        | some p =>
            match analyzeLoop pv df target alpha rest with
            | none => none
            | some (sig, nonsig) =>
                if p < alpha then some (c :: sig, nonsig)
                else some (sig, c :: nonsig)

/-- Embeds StatisticalTestRunner.analyze_features, returning the significant
and non-significant column-name lists (none when the run crashes). -/
def analyze_features (pv : ResultMap → ℚ) (df : DataFrame) (target : String)
    (alpha : ℚ) : Option (List String × List String) :=
  analyzeLoop pv df target alpha df.header

/-- Recognises a result of the paired t-test computation, either as a raw
dict or through the detailed summary's test name. -/
def isPairedTTestResult : PyValue → Bool
  | PyValue.dict (ResultMap.pairedT _ _) => true
  | PyValue.summary n _ _ => decide (n = "Paired t-test")
  | _ => false

/-- A concrete p-value oracle for closed evaluations. -/
def pvZero : ResultMap → ℚ := fun _ => 0

/-- A one-column boolean-dtype DataFrame. -/
def dfBool : DataFrame :=
  { header := ["a"], dtypes := [Dtype.boolD],
    rows := [[Cell.boolV true], [Cell.boolV false]] }

/-- A one-column string (object-dtype) DataFrame, so that the chi-squared
goodness-of-fit test is selected for its single feature. -/
def dfGof : DataFrame :=
  { header := ["a"], dtypes := [Dtype.objD],
    rows := [[Cell.str "x"], [Cell.str "y"]] }

/-- A one-column numeric DataFrame with one missing value, for the impute
strategy. -/
def dfImpute : DataFrame :=
  { header := ["a"], dtypes := [Dtype.floatD],
    rows := [[Cell.num 1], [Cell.num 3], [Cell.na]] }

/-- A one-column numeric DataFrame with a missing value in the middle, for an
unknown missing-data strategy. -/
def dfBogus : DataFrame :=
  { header := ["a"], dtypes := [Dtype.floatD],
    rows := [[Cell.num 1], [Cell.na], [Cell.num 3]] }

/-- A two-column all-numeric DataFrame with three rows, so that selection
against a numeric target picks ANOVA and the ANOVA type check fails. -/
def dfTwoNum : DataFrame :=
  { header := ["a", "b"], dtypes := [Dtype.floatD, Dtype.floatD],
    rows := [[Cell.num 1, Cell.num 2], [Cell.num 2, Cell.num 3],
             [Cell.num 3, Cell.num 5]] }

/-- A numeric feature with a categorical target, one row. -/
def dfMixed : DataFrame :=
  { header := ["a", "b"], dtypes := [Dtype.floatD, Dtype.objD],
    rows := [[Cell.num 1, Cell.str "x"]] }

/-- A one-column numeric DataFrame with two rows, small enough for the
one-sample t-test. -/
def dfSmall : DataFrame :=
  { header := ["a"], dtypes := [Dtype.floatD],
    rows := [[Cell.num 1], [Cell.num 2]] }

/-- A two-column all-numeric DataFrame with exactly 30 rows. -/
def dfThirty : DataFrame :=
  { header := ["a", "b"], dtypes := [Dtype.floatD, Dtype.floatD],
    rows := List.replicate 30 [Cell.num 1, Cell.num 2] }

/-- A column of numeric dtype classifies as numerical. -/
theorem get_feature_type_numerical (df : DataFrame) (c : String) (dt : Dtype)
    (h : colDtype df c = some dt) (hn : isNumericDtype dt = true) :
    get_feature_type df c = "numerical" := by
  unfold get_feature_type
  rw [h]
  simp [hn]

/-- A column of non-numeric dtype classifies as categorical. -/
theorem get_feature_type_categorical (df : DataFrame) (c : String) (dt : Dtype)
    (h : colDtype df c = some dt) (hn : isNumericDtype dt = false) :
    get_feature_type df c = "categorical" := by
  unfold get_feature_type
  rw [h]
  simp [hn]

/-- C1: for a dataset whose single feature1 is categorical (feature2 absent),
the selector picks the chi-squared goodness-of-fit test, and
execute_statistical_test with detailed=false silently returns the empty
mapping instead of a clear not-implemented result; this exhibits the code
violating the claim at a concrete input. -/
theorem gof_returns_empty_mapping :
    determine_statistical_test (cleanData dfGof "a" none "remove") "a" none false =
      "Chi-squared goodness of fit test" ∧
    (execute_statistical_test pvZero dfGof "a" none false "remove").1 =
      PyValue.dict ResultMap.empty := by
  decide

unseal Rat.mul Rat.inv Rat.add in
/-- C2: execute_statistical_test with handle_missing impute fills the missing
entry of the caller's own DataFrame in place (the missing cell of dfImpute
becomes the column mean 2), so the caller's original dataset is mutated,
contradicting the claim at a concrete input. -/
theorem impute_mutates_caller :
    (execute_statistical_test pvZero dfImpute "a" none false "impute").2 ≠ dfImpute ∧
    (execute_statistical_test pvZero dfImpute "a" none false "impute").2 =
      { header := ["a"], dtypes := [Dtype.floatD],
        rows := [[Cell.num 1], [Cell.num 3], [Cell.num 2]] } := by
  decide

/-- C3 counterexample: a boolean-dtype column is classified as numerical by
get_feature_type, because pandas is_numeric_dtype counts boolean as numeric;
the claim that every boolean column classifies as categorical is false. -/
theorem bool_column_classified_numerical :
    colDtype dfBool "a" = some Dtype.boolD ∧
    get_feature_type dfBool "a" = "numerical" ∧
    get_feature_type dfBool "a" ≠ "categorical" := by
  decide

/-- C3 amended: get_feature_type classifies a column as categorical exactly
when its dtype is object (string-like); integer, floating-point and boolean
columns all classify as numerical. -/
theorem get_feature_type_by_dtype (df : DataFrame) (c : String) (dt : Dtype)
    (h : colDtype df c = some dt) :
    get_feature_type df c =
      (if dt = Dtype.objD then "categorical" else "numerical") := by
  unfold get_feature_type
  rw [h]
  cases dt <;> simp [isNumericDtype]

/-- C3 witness: the amended classification evaluated on the boolean-dtype
column of dfBool. -/
theorem get_feature_type_by_dtype_witness :
    get_feature_type dfBool "a" =
      (if Dtype.boolD = Dtype.objD then "categorical" else "numerical") :=
  get_feature_type_by_dtype dfBool "a" Dtype.boolD (by decide)

unseal Rat.mul Rat.inv Rat.add in
/-- C4: execute_statistical_test with the unknown strategy "bogus" raises no
configuration error; it silently continues on the uncleaned data, running the
one-sample t-test on a sample that still contains the missing cell. -/
theorem unknown_strategy_proceeds :
    (execute_statistical_test pvZero dfBogus "a" none false "bogus").1 =
      PyValue.dict (ResultMap.oneSampleT [Cell.num 1, Cell.na, Cell.num 3] 2) := by
  decide

/-- C5: on a small all-numeric dataset the executor returns the ANOVA
type-mismatch error as a plain string, and analyze_features then crashes
(modelled as none) instead of treating the column as non-significant and
continuing. -/
theorem analyze_crashes_on_error_string :
    (execute_statistical_test pvZero dfTwoNum "a" (some "b") false "remove").1 =
      PyValue.strv "Error: ANOVA requires one numeric and one categorical feature." ∧
    analyze_features pvZero dfTwoNum "b" ((1 : ℚ) / 20) = none := by
  decide

/-- C6: for a single numerical feature (feature2 absent),
determine_statistical_test returns the one-sample t-test when the row count
is at most 30 (including exactly 30) and the Z-test when it exceeds 30. -/
theorem single_numeric_selection (df : DataFrame) (f1 : String) (dt : Dtype)
    (paired : Bool) (h1 : colDtype df f1 = some dt)
    (hn : isNumericDtype dt = true) :
    (nrows df ≤ 30 →
      determine_statistical_test df f1 none paired = "One-sample t-test") ∧
    (30 < nrows df →
      determine_statistical_test df f1 none paired = "Z-test") := by
  have ht := get_feature_type_numerical df f1 dt h1 hn
  constructor
  · intro hle
    simp [determine_statistical_test, ht, hle]
  · intro hgt
    simp [determine_statistical_test, ht, Nat.not_le.mpr hgt]

/-- C6 witness: dfSmall has two rows, so the one-sample t-test is selected;
dfThirty has exactly thirty rows, so the boundary also selects it. -/
theorem single_numeric_selection_witness :
    determine_statistical_test dfSmall "a" none false = "One-sample t-test" :=
  (single_numeric_selection dfSmall "a" Dtype.floatD false (by decide)
    (by decide)).1 (by decide)

/-- C7: for two numerical features, determine_statistical_test returns the
paired t-test whenever paired is true regardless of sample size; with paired
false it returns the two-sample t-test above 30 rows and ANOVA at or below
30 rows. -/
theorem two_numeric_selection (df : DataFrame) (f1 f2 : String)
    (dt1 dt2 : Dtype) (paired : Bool) (hf2 : f2 ≠ "")
    (h1 : colDtype df f1 = some dt1) (h2 : colDtype df f2 = some dt2)
    (hn1 : isNumericDtype dt1 = true) (hn2 : isNumericDtype dt2 = true) :
    (paired = true →
      determine_statistical_test df f1 (some f2) paired = "Paired t-test") ∧
    (paired = false → 30 < nrows df →
      determine_statistical_test df f1 (some f2) paired = "Two-sample t-test") ∧
    (paired = false → nrows df ≤ 30 →
      determine_statistical_test df f1 (some f2) paired = "ANOVA") := by
  have ht1 := get_feature_type_numerical df f1 dt1 h1 hn1
  have ht2 := get_feature_type_numerical df f2 dt2 h2 hn2
  refine ⟨fun hp => ?_, fun hp hgt => ?_, fun hp hle => ?_⟩
  · simp [determine_statistical_test, ht1, ht2, hf2, hp]
  · simp [determine_statistical_test, ht1, ht2, hf2, hp, hgt]
  · simp [determine_statistical_test, ht1, ht2, hf2, hp, Nat.not_lt.mpr hle]

/-- C7 witness: dfThirty has exactly 30 all-numeric rows, so with paired
false the boundary selects ANOVA. -/
theorem two_numeric_selection_witness :
    determine_statistical_test dfThirty "a" (some "b") false = "ANOVA" :=
  (two_numeric_selection dfThirty "a" "b" Dtype.floatD Dtype.floatD false
    (by decide) (by decide) (by decide) (by decide) (by decide)).2.2 rfl
    (by decide)

/-- C8: whenever the selector applied to the cleaned data picks the
one-sample t-test, the executor passes the trusted t-test routine the cleaned
feature1 column as the sample and that same cleaned column's own mean as the
hypothesized population mean. -/
theorem one_sample_popmean (pv : ResultMap → ℚ) (df : DataFrame)
    (f1 : String) (f2 : Option String) (hm : String)
    (h : determine_statistical_test (cleanData df f1 f2 hm) f1 f2 false =
      "One-sample t-test") :
    runSelectedTest (cleanData df f1 f2 hm) f1 f2 "One-sample t-test" =
      PyValue.dict (ResultMap.oneSampleT (colCells (cleanData df f1 f2 hm) f1)
        (meanCells (colCells (cleanData df f1 f2 hm) f1))) ∧
    (execute_statistical_test pv df f1 f2 false hm).1 =
      PyValue.dict (ResultMap.oneSampleT (colCells (cleanData df f1 f2 hm) f1)
        (meanCells (colCells (cleanData df f1 f2 hm) f1))) := by
  constructor
  · simp [runSelectedTest]
  · simp [execute_statistical_test, h, runSelectedTest, wrapDetailed]

/-- C8 witness: on dfSmall with the remove strategy the one-sample t-test is
selected and the executor's result records the cleaned column and its own
mean. -/
theorem one_sample_popmean_witness :
    (execute_statistical_test pvZero dfSmall "a" none false "remove").1 =
      PyValue.dict
        (ResultMap.oneSampleT (colCells (cleanData dfSmall "a" none "remove") "a")
          (meanCells (colCells (cleanData dfSmall "a" none "remove") "a"))) :=
  (one_sample_popmean pvZero dfSmall "a" none "remove" (by decide)).2

/-- The analyzer loop, whenever it completes, distributes exactly the
non-target entries of the traversed list over its two output lists. -/
theorem analyzeLoop_perm (pv : ResultMap → ℚ) (df : DataFrame)
    (target : String) (alpha : ℚ) :
    ∀ l sig nonsig, analyzeLoop pv df target alpha l = some (sig, nonsig) →
      List.Perm (sig ++ nonsig) (l.filter (fun c => decide (c ≠ target))) := by
  intro l
  induction l with
  | nil =>
      intro sig nonsig h
      simp [analyzeLoop] at h
      obtain ⟨h1, h2⟩ := h
      subst h1
      subst h2
      simp
  | cons c rest ih =>
      intro sig nonsig h
      by_cases hc : c = target
      · rw [analyzeLoop, if_pos hc] at h
        have hfil : (c :: rest).filter (fun c => decide (c ≠ target)) =
            rest.filter (fun c => decide (c ≠ target)) :=
          List.filter_cons_of_neg (by simp [hc])
        rw [hfil]
        exact ih sig nonsig h
      · rw [analyzeLoop, if_neg hc] at h
        have hfil : (c :: rest).filter (fun c => decide (c ≠ target)) =
            c :: rest.filter (fun c => decide (c ≠ target)) :=
          List.filter_cons_of_pos (by simp [hc])
        rw [hfil]
        rcases hpv : pValueOfResult pv
            (execute_statistical_test pv df c (some target) false "remove").1 with
          _ | p
        · rw [hpv] at h
          simp at h
        · rw [hpv] at h
          rcases hrest : analyzeLoop pv df target alpha rest with _ | sn
          · rw [hrest] at h
            simp at h
          · rcases sn with ⟨s0, ns0⟩
            rw [hrest] at h
            dsimp only at h
            by_cases hpa : p < alpha
            · rw [if_pos hpa] at h
              simp only [Option.some.injEq, Prod.mk.injEq] at h
              obtain ⟨h1, h2⟩ := h
              subst h1
              subst h2
              simpa using (ih s0 ns0 hrest).cons c
            · rw [if_neg hpa] at h
              simp only [Option.some.injEq, Prod.mk.injEq] at h
              obtain ⟨h1, h2⟩ := h
              subst h1
              subst h2
              exact List.perm_middle.trans ((ih s0 ns0 hrest).cons c)

/-- C9: whenever analyze_features completes, its two output lists partition
the non-target columns exactly: a column lands in exactly one of the
significant and non-significant lists precisely when it is a non-target
column of the dataset. -/
theorem analyze_features_partition (pv : ResultMap → ℚ) (df : DataFrame)
    (target : String) (alpha : ℚ) (sig nonsig : List String)
    (h : analyze_features pv df target alpha = some (sig, nonsig))
    (hnd : df.header.Nodup) :
    ∀ c : String, ((c ∈ sig ∧ c ∉ nonsig) ∨ (c ∈ nonsig ∧ c ∉ sig)) ↔
      (c ∈ df.header ∧ c ≠ target) := by
  have hperm := analyzeLoop_perm pv df target alpha df.header sig nonsig h
  have hndf : (df.header.filter (fun c => decide (c ≠ target))).Nodup :=
    hnd.filter _
  have hnds : (sig ++ nonsig).Nodup := hperm.nodup_iff.mpr hndf
  rw [List.nodup_append] at hnds
  obtain ⟨-, -, hdisj⟩ := hnds
  have hmem : ∀ c : String, c ∈ sig ++ nonsig ↔ (c ∈ df.header ∧ c ≠ target) := by
    intro c
    rw [hperm.mem_iff, List.mem_filter]
    simp
  intro c
  constructor
  · rintro (⟨hs, -⟩ | ⟨hn, -⟩)
    · exact (hmem c).mp (List.mem_append.mpr (Or.inl hs))
    · exact (hmem c).mp (List.mem_append.mpr (Or.inr hn))
  · intro hc
    rcases List.mem_append.mp ((hmem c).mpr hc) with hs | hn
    · exact Or.inl ⟨hs, hdisj hs⟩
    · exact Or.inr ⟨hn, fun hs => hdisj hs hn⟩

unseal Rat.mul Rat.inv Rat.add in
/-- C9 witness: on dfMixed with target column b the analyzer completes with
the lists (["a"], []), and the partition property holds for column a. -/
theorem analyze_features_partition_witness :
    (("a" ∈ (["a"] : List String) ∧ "a" ∉ ([] : List String)) ∨
      ("a" ∈ ([] : List String) ∧ "a" ∉ (["a"] : List String))) ↔
      ("a" ∈ dfMixed.header ∧ "a" ≠ "b") :=
  analyze_features_partition pvZero dfMixed "b" ((1 : ℚ) / 20) ["a"] []
    (by decide) (by decide) "a"

/-- The selector with a false pairing flag never names the paired t-test. -/
theorem determine_unpaired_ne (df : DataFrame) (f1 : String)
    (f2 : Option String) :
    determine_statistical_test df f1 f2 false ≠ "Paired t-test" := by
  unfold determine_statistical_test
  dsimp only
  repeat' split
  all_goals
    first
      | decide
      | exact absurd (by assumption : false = true) (by decide)

/-- The dispatch never produces a paired t-test result when the selected name
is not the paired t-test. -/
theorem runSelectedTest_not_paired (data : DataFrame) (f1 : String)
    (f2 : Option String) (name : String) (h : name ≠ "Paired t-test") :
    isPairedTTestResult (runSelectedTest data f1 f2 name) = false := by
  by_cases h1 : name = "Z-test"
  · simp [runSelectedTest, h1, isPairedTTestResult]
  by_cases h2 : name = "One-sample t-test"
  · simp [runSelectedTest, h1, h2, isPairedTTestResult]
  by_cases h3 : name = "Two-sample t-test"
  · simp [runSelectedTest, h1, h2, h3, isPairedTTestResult]
  by_cases h5 : name = "ANOVA"
  · rcases f2 with _ | s
    · simp [runSelectedTest, h1, h2, h3, h, h5, isPairedTTestResult]
    · by_cases hn1 : (colDtype data f1).elim false isNumericDtype = true ∧
        (colDtype data s).elim false isNumericDtype = false
      · simp [runSelectedTest, h1, h2, h3, h, h5, hn1, isPairedTTestResult]
      · by_cases hn2 : (colDtype data s).elim false isNumericDtype = true ∧
          (colDtype data f1).elim false isNumericDtype = false
        · simp [runSelectedTest, h1, h2, h3, h, h5, hn1, hn2,
            isPairedTTestResult]
        · simp [runSelectedTest, h1, h2, h3, h, h5, hn1, hn2,
            isPairedTTestResult]
  by_cases h6 : name = "Chi-squared test of independence"
  · simp [runSelectedTest, h1, h2, h3, h, h5, h6, isPairedTTestResult]
  · simp [runSelectedTest, h1, h2, h3, h, h5, h6, isPairedTTestResult]

/-- The summary wrapper preserves the absence of a paired t-test result. -/
theorem wrapDetailed_not_paired (pv : ResultMap → ℚ) (name : String)
    (res : PyValue) (detailed : Bool) (hn : name ≠ "Paired t-test")
    (hr : isPairedTTestResult res = false) :
    isPairedTTestResult (wrapDetailed pv name res detailed) = false := by
  cases res with
  | strv s => simp [wrapDetailed, isPairedTTestResult]
  | dict m =>
      cases detailed with
      | false => simpa [wrapDetailed] using hr
      | true => simp [wrapDetailed, isPairedTTestResult, hn]
  | summary n o p => simpa [wrapDetailed] using hr

/-- C10: execute_statistical_test invokes the selector with the selector's
default pairing flag false, so no call to it, with any dataset, features,
detail flag, or missing-data strategy, ever produces a paired t-test result,
neither as a raw dict nor through a detailed summary. -/
theorem execute_never_paired (pv : ResultMap → ℚ) (df : DataFrame)
    (f1 : String) (f2 : Option String) (detailed : Bool) (hm : String) :
    isPairedTTestResult (execute_statistical_test pv df f1 f2 detailed hm).1 =
      false := by
  unfold execute_statistical_test
  exact wrapDetailed_not_paired pv _ _ detailed
    (determine_unpaired_ne (cleanData df f1 f2 hm) f1 f2)
    (runSelectedTest_not_paired (cleanData df f1 f2 hm) f1 f2 _
      (determine_unpaired_ne (cleanData df f1 f2 hm) f1 f2))
